import Mathlib

/-!
Verification of the SDA4 decentralised context-aware authentication system.

The development shallowly embeds the Python sources:
  resource_api/context.py  (policy decision point),
  idp/app.py               (risk scorer and token issuer),
  local_service/app.py     (local session issuer and decoder).

Modelling conventions:
  - Python strings are Lean Strings; dictionary claim lookups become Option
    fields of a structure.
  - Python str.strip and str.lower are embedded as pyStrip and pyLower over
    the character list (the inputs exercised here are ASCII).
  - Epoch timestamps are integers; datetime.timestamp together with the
    int(...) truncation is modelled as an integer clock, which is exact for
    the whole-minute TTL offsets the issuer uses.
  - The hour of a timezone-localised datetime is a natural number; the
    policy evaluator only reads now.hour.
  - Signed JWTs are modelled as a record carrying the signing secret, the
    algorithm and the payload; signature verification is equality of secret
    and algorithm with the verifier configuration, and the jose expiry check
    rejects exactly when exp < now.
-/

namespace SDA4

/-- Decisions produced by the policy decision point in resource_api/context.py. -/
inductive Decision
  | allow
  | challenge
  | deny
deriving DecidableEq, Repr

/-- Python str.strip for ASCII whitespace. -/
def isPySpace (c : Char) : Bool :=
  c = ' ' || c = '\t' || c = '\n' || c = '\r' || c = '\x0b' || c = '\x0c'

/-- Embeds Python str.strip: drop whitespace from both ends. -/
def pyStrip (s : String) : String :=
  String.mk (((s.data.dropWhile isPySpace).reverse.dropWhile isPySpace).reverse)

/-- Embeds Python str.lower for the ASCII inputs used here. -/
def pyLower (s : String) : String :=
  String.mk (s.data.map Char.toLower)

/-- Embeds Python str.startswith. -/
def pyStartswith (s pre : String) : Bool :=
  pre.data.isPrefixOf s.data

/-- A JSON-decoded Python value as it can appear in a JWT claims dict.
JSON numbers restricted to integers; a float riskscore is not exercised by
any claim and is out of the model. -/
inductive PyVal
  | pint (n : Int)
  | pstr (s : String)
  | pbool (b : Bool)
  | pnull
  | pother
deriving DecidableEq, Repr

/-- Decimal digit accumulation for pyParseInt. -/
def decDigitsAux (acc : Nat) : List Char → Option Nat
  | [] => some acc
  | c :: cs => if c.isDigit then decDigitsAux (acc * 10 + (c.toNat - 48)) cs else none

/-- Embeds Python int(str): strip whitespace, optional sign, decimal digits.
(The underscore digit-group separators of Python numeric literals are not
modelled; no claim depends on them.) -/
def pyParseInt (s : String) : Option Int :=
  match (pyStrip s).data with
  | [] => none
  | '-' :: rest =>
      if rest = [] then none else (decDigitsAux 0 rest).map (fun n => -(n : Int))
  | '+' :: rest =>
      if rest = [] then none else (decDigitsAux 0 rest).map (fun n => (n : Int))
  | cs => (decDigitsAux 0 cs).map (fun n => (n : Int))

/-- Embeds Python int(v) on a JSON-decoded value: ints pass through, strings
parse as decimal integers, bools convert to 0 or 1, null and structured
values raise (here: none). -/
def pyToInt : PyVal → Option Int
  | .pint n => some n
  | .pstr s => pyParseInt s
  | .pbool b => some (if b then 1 else 0)
  | .pnull => none
  | .pother => none

/-- The claim fields read by evaluate_request_context in
resource_api/context.py: claims.get on "role", "deviceid", "riskscore". -/
structure Claims where
  role : Option String
  deviceid : Option String
  riskscore : Option PyVal
deriving DecidableEq, Repr

/-- The environment-derived policy configuration of resource_api/context.py:
business-hours window, timezone key, sensitive path prefixes and the
registered device allow-list. -/
structure PolicyConfig where
  bhStart : Nat
  bhEnd : Nat
  tzKey : String
  sensitivePaths : List String
  registeredDevices : List String
deriving DecidableEq, Repr

/-- The default configuration of resource_api/context.py when no environment
overrides are present. -/
def default_config : PolicyConfig :=
  { bhStart := 7
    bhEnd := 19
    tzKey := "Europe/Zurich"
    sensitivePaths := ["/export", "/admin", "/admin/metrics"]
    registeredDevices := ["mac-001", "win-007", "phone-123"] }

/-- Embeds _within_business_hours: BH_START <= now.hour < BH_END. -/
def _within_business_hours (cfg : PolicyConfig) (nowHour : Nat) : Bool :=
  decide (cfg.bhStart ≤ nowHour ∧ nowHour < cfg.bhEnd)

/-- Embeds _is_sensitive_path: exact match or prefix match through a "/"
segment separator. -/
def _is_sensitive_path (path : String) (sensitive : List String) : Bool :=
  sensitive.any (fun p => path == p || pyStartswith path (p ++ "/"))

/-- Embeds the line deviceid = (claims.get("deviceid") or "").strip() of
evaluate_request_context. -/
def effective_deviceid (c : Claims) : String :=
  pyStrip (c.deviceid.getD "")

/-- Embeds the riskscore extraction of evaluate_request_context:
int(claims.get("riskscore", 0)) with TypeError and ValueError mapped to 0. -/
def effective_riskscore (c : Claims) : Int :=
  match c.riskscore with
  | none => 0
  | some v => (pyToInt v).getD 0

/-- The business-hours denial reason string of evaluate_request_context. -/
def reason_outside_hours (cfg : PolicyConfig) : String :=
  "Access denied: outside business hours (" ++ toString cfg.bhStart ++ ":00–"
    ++ toString cfg.bhEnd ++ ":00, " ++ cfg.tzKey ++ ")."

/-- The missing-device denial reason string. -/
def reason_device_missing : String := "Access denied: device ID missing."

/-- The untrusted-device denial reason string. -/
def reason_device_untrusted (deviceid : String) : String :=
  "Access denied: device not trusted (" ++ deviceid ++ ")."

/-- The admin-on-sensitive-endpoint allow reason string. -/
def reason_admin_sensitive : String := "Access allowed: admin on sensitive endpoint."

/-- The high-riskscore denial reason string. -/
def reason_high_risk : String := "Access denied: high riskscore on sensitive endpoint."

/-- The step-up challenge reason string. -/
def reason_stepup : String := "Access requires step-up for sensitive endpoint."

/-- The default allow reason string. -/
def reason_default_allow : String := "Access allowed."

/-- Gates 2 to 4 of evaluate_request_context: device allow-list, then the
sensitivity rules, then the default allow. -/
def _context_after_hours (cfg : PolicyConfig) (path : String) (c : Claims) :
    Decision × String :=
  let deviceid := effective_deviceid c
  if deviceid = "" then (Decision.deny, reason_device_missing)
  else if deviceid ∉ cfg.registeredDevices then
    (Decision.deny, reason_device_untrusted deviceid)
  else if _is_sensitive_path path cfg.sensitivePaths = true then
    if c.role = some "admin" then (Decision.allow, reason_admin_sensitive)
    else if 70 ≤ effective_riskscore c then (Decision.deny, reason_high_risk)
    else (Decision.challenge, reason_stepup)
  else (Decision.allow, reason_default_allow)

/-- Embeds evaluate_request_context of resource_api/context.py: the
business-hours gate first, then the device and sensitivity gates. -/
def evaluate_request_context (cfg : PolicyConfig) (path : String) (c : Claims)
    (nowHour : Nat) : Decision × String :=
  if _within_business_hours cfg nowHour = true then _context_after_hours cfg path c
  else (Decision.deny, reason_outside_hours cfg)

/-- Embeds compute_risk of idp/app.py. -/
def compute_risk (role deviceid : String) : Int :=
  let risk : Int := 40
  let risk := if role = "contractor" then risk + 20 else risk
  let risk :=
    if deviceid = "" ∨ pyLower (pyStrip deviceid) ∈ (["", "unknown", "none"] : List String)
    then risk + 20 else risk
  max 0 (min risk 99)

/-- A record of the demo user store of idp/app.py. -/
structure UserRec where
  password : String
  role : String
deriving DecidableEq, Repr

/-- The default USERS table of idp/app.py. -/
def USERS : List (String × UserRec) :=
  [("analyst", { password := "analyst", role := "analyst" }),
   ("contractor", { password := "contractor", role := "contractor" }),
   ("admin", { password := "admin", role := "admin" })]

/-- The login request body of idp/app.py with its optional device fields. -/
structure LoginIn where
  username : String
  password : String
  deviceid : Option String := none
  device_id : Option String := none
deriving DecidableEq, Repr

/-- Python `a or b` on an optional string against a string default:
None and the empty string are falsy. -/
def pyOrStr : Option String → String → String
  | some s, b => if s = "" then b else s
  | none, b => b

/-- Embeds the device resolution line of login in idp/app.py:
(inp.deviceid or inp.device_id or "unknown").strip() or "unknown". -/
def resolve_deviceid (dev alt : Option String) : String :=
  let d := pyStrip (pyOrStr dev (pyOrStr alt "unknown"))
  if d = "" then "unknown" else d

/-- The JWT payload built by a successful login in idp/app.py. -/
structure IssuedClaims where
  sub : String
  role : String
  deviceid : String
  riskscore : Int
  iat : Int
  exp : Int
  typ : String
  auth_time : Int
deriving DecidableEq, Repr

/-- The observable result of a successful login: the signed payload and the
expires_in field of TokenOut. -/
structure LoginResult where
  claims : IssuedClaims
  expires_in : Int
deriving DecidableEq, Repr

/-- Dictionary lookup in the user table, as USERS.get(inp.username). -/
def lookupUser (users : List (String × UserRec)) (u : String) : Option UserRec :=
  (users.find? (fun p => p.1 == u)).map Prod.snd

/-- Embeds the login handler of idp/app.py: credential check, device
resolution, risk scoring and claim construction. Authentication failure
(HTTP 401) is none. -/
def login (users : List (String × UserRec)) (inp : LoginIn) (nowTs : Int)
    (ttlMinutes : Int) : Option LoginResult :=
  match lookupUser users inp.username with
  | none => none
  | some user =>
    if user.password ≠ inp.password then none
    else
      let role := user.role
      let deviceid := resolve_deviceid inp.deviceid inp.device_id
      let iat := nowTs
      let exp := nowTs + 60 * ttlMinutes
      let auth_time := iat
      let riskscore := compute_risk role deviceid
      some
        { claims :=
            { sub := inp.username, role := role, deviceid := deviceid
              riskscore := riskscore, iat := iat, exp := exp
              typ := "access", auth_time := auth_time }
          expires_in := exp - iat }

/-- The payload of a local-service session token; typ and iss are optional
because _decode_local_token must handle foreign payloads lacking them. -/
structure LocalClaims where
  sub : String
  role : String
  iat : Int
  exp : Int
  typ : Option String
  iss : Option String
deriving DecidableEq, Repr

/-- A signed local token: the key and algorithm it was signed with, plus its
payload. -/
structure LocalToken where
  secret : String
  alg : String
  payload : LocalClaims
deriving DecidableEq, Repr

/-- The two failure modes of _decode_local_token: a JWTError from jose
(signature, algorithm or expiry) mapped to HTTP 401, and the explicit
"Invalid local token context" rejection. -/
inductive LocalAuthError
  | jwtError
  | invalidContext
deriving DecidableEq, Repr

/-- Embeds _issue_local_token of local_service/app.py. -/
def _issue_local_token (localSecret localAlg : String) (sub role : String)
    (nowTs : Int) (ttlSeconds : Int) : LocalToken :=
  { secret := localSecret
    alg := localAlg
    payload :=
      { sub := sub, role := role, iat := nowTs, exp := nowTs + ttlSeconds
        typ := some "local", iss := some "local_service" } }

/-- Embeds _decode_local_token of local_service/app.py: jose verification of
signature, algorithm and expiry, then the typ and iss marker check. -/
def _decode_local_token (localSecret localAlg : String) (nowTs : Int)
    (tok : LocalToken) : Except LocalAuthError LocalClaims :=
  if tok.secret ≠ localSecret ∨ tok.alg ≠ localAlg ∨ tok.payload.exp < nowTs then
    Except.error LocalAuthError.jwtError
  else if tok.payload.typ ≠ some "local" ∨ tok.payload.iss ≠ some "local_service" then
    Except.error LocalAuthError.invalidContext
  else Except.ok tok.payload

/-- C1: on a sensitive path, for any claims and any hour that passes the
business-hours and device gates, evaluate_request_context decides allow for
role admin, deny for a non-admin whose riskscore is at least 70, and
challenge for a non-admin whose riskscore is below 70. -/
theorem C1_sensitive_role_risk (cfg : PolicyConfig) (path : String) (c : Claims)
    (hour : Nat)
    (hsens : _is_sensitive_path path cfg.sensitivePaths = true)
    (hbh : _within_business_hours cfg hour = true)
    (hdev : effective_deviceid c ≠ "")
    (hreg : effective_deviceid c ∈ cfg.registeredDevices) :
    (evaluate_request_context cfg path c hour).1 =
      (if c.role = some "admin" then Decision.allow
       else if 70 ≤ effective_riskscore c then Decision.deny
       else Decision.challenge) := by
  by_cases hr : c.role = some "admin" <;>
    by_cases hscore : 70 ≤ effective_riskscore c <;>
      simp [evaluate_request_context, _context_after_hours, hbh, hdev, hreg, hsens,
        hr, hscore]

/-- C1 witness: an admin with a registered device on the sensitive path
/export at hour 10 is allowed. -/
theorem C1_witness :
    (evaluate_request_context default_config "/export"
        { role := some "admin", deviceid := some "mac-001", riskscore := none } 10).1
      = Decision.allow := by
  have h := C1_sensitive_role_risk default_config "/export"
      { role := some "admin", deviceid := some "mac-001", riskscore := none } 10
      (by decide) (by decide) (by decide) (by decide)
  rw [h]; decide

/-- C2: outside the half-open hour window the evaluator denies with the
business-hours reason regardless of path and claims; in particular the end
hour itself is denied, while at the start hour (for a non-degenerate window)
the business-hours gate passes and evaluation continues with the remaining
gates. -/
theorem C2_business_hours_gate (cfg : PolicyConfig) (path : String) (c : Claims) :
    (∀ hour : Nat, (hour < cfg.bhStart ∨ cfg.bhEnd ≤ hour) →
        evaluate_request_context cfg path c hour
          = (Decision.deny, reason_outside_hours cfg))
    ∧ evaluate_request_context cfg path c cfg.bhEnd
        = (Decision.deny, reason_outside_hours cfg)
    ∧ (cfg.bhStart < cfg.bhEnd →
        evaluate_request_context cfg path c cfg.bhStart
          = _context_after_hours cfg path c) := by
  refine ⟨?_, ?_, ?_⟩
  · intro hour hh
    have hfalse : _within_business_hours cfg hour = false := by
      simp only [_within_business_hours, decide_eq_false_iff_not]
      omega
    simp [evaluate_request_context, hfalse]
  · have hfalse : _within_business_hours cfg cfg.bhEnd = false := by
      simp only [_within_business_hours, decide_eq_false_iff_not]
      omega
    simp [evaluate_request_context, hfalse]
  · intro hlt
    have htrue : _within_business_hours cfg cfg.bhStart = true := by
      simp only [_within_business_hours, decide_eq_true_eq]
      omega
    simp [evaluate_request_context, htrue]

/-- C2 witness: with the default 7 to 19 window, hour 3 and hour 19 are
denied with the business-hours reason and hour 7 proceeds past the gate,
for an admin with a trusted device on a non-sensitive path. -/
theorem C2_witness :
    evaluate_request_context default_config "/resource"
        { role := some "admin", deviceid := some "mac-001", riskscore := none } 3
      = (Decision.deny, reason_outside_hours default_config)
    ∧ evaluate_request_context default_config "/resource"
        { role := some "admin", deviceid := some "mac-001", riskscore := none } 19
      = (Decision.deny, reason_outside_hours default_config)
    ∧ evaluate_request_context default_config "/resource"
        { role := some "admin", deviceid := some "mac-001", riskscore := none } 7
      = _context_after_hours default_config "/resource"
          { role := some "admin", deviceid := some "mac-001", riskscore := none } :=
  ⟨(C2_business_hours_gate default_config "/resource"
      { role := some "admin", deviceid := some "mac-001", riskscore := none }).1 3
      (Or.inl (by decide)),
   (C2_business_hours_gate default_config "/resource"
      { role := some "admin", deviceid := some "mac-001", riskscore := none }).2.1,
   (C2_business_hours_gate default_config "/resource"
      { role := some "admin", deviceid := some "mac-001", riskscore := none }).2.2
      (by decide)⟩

/-- C3: inside business hours, a deviceid that trims to empty is denied with
the device-ID-missing reason, and a non-empty trimmed deviceid outside the
registered set is denied with the device-not-trusted reason, for every path
and every role including admin. -/
theorem C3_device_gate (cfg : PolicyConfig) (path : String) (c : Claims) (hour : Nat)
    (hbh : _within_business_hours cfg hour = true) :
    (effective_deviceid c = "" →
        evaluate_request_context cfg path c hour
          = (Decision.deny, reason_device_missing))
    ∧ (effective_deviceid c ≠ "" → effective_deviceid c ∉ cfg.registeredDevices →
        evaluate_request_context cfg path c hour
          = (Decision.deny, reason_device_untrusted (effective_deviceid c))) := by
  constructor
  · intro h0
    simp [evaluate_request_context, _context_after_hours, hbh, h0]
  · intro h0 h1
    simp [evaluate_request_context, _context_after_hours, hbh, h0, h1]

/-- C3 witness: at hour 10 an admin with a whitespace-only deviceid is
denied as missing, and an admin with the unregistered device rogue-9 is
denied as untrusted. -/
theorem C3_witness :
    evaluate_request_context default_config "/resource"
        { role := some "admin", deviceid := some "   ", riskscore := none } 10
      = (Decision.deny, reason_device_missing)
    ∧ evaluate_request_context default_config "/resource"
        { role := some "admin", deviceid := some "rogue-9", riskscore := none } 10
      = (Decision.deny, reason_device_untrusted "rogue-9") :=
  ⟨(C3_device_gate default_config "/resource"
      { role := some "admin", deviceid := some "   ", riskscore := none } 10
      (by decide)).1 (by decide),
   (C3_device_gate default_config "/resource"
      { role := some "admin", deviceid := some "rogue-9", riskscore := none } 10
      (by decide)).2 (by decide) (by decide)⟩

/-- C4: compute_risk is exactly the clamp to 0..99 of 40 plus 20 for the
contractor role plus 20 for an empty or blank/unknown/none device, and its
value always lies in the interval 0..99. -/
theorem C4_compute_risk_formula (role deviceid : String) :
    compute_risk role deviceid =
      max 0 (min (40 + (if role = "contractor" then (20 : Int) else 0)
        + (if deviceid = ""
              ∨ pyLower (pyStrip deviceid) ∈ (["", "unknown", "none"] : List String)
           then (20 : Int) else 0)) 99)
    ∧ 0 ≤ compute_risk role deviceid ∧ compute_risk role deviceid ≤ 99 := by
  simp only [compute_risk]
  refine ⟨?_, ?_, ?_⟩ <;> split_ifs <;> decide

/-- pyStartswith as an existential: s starts with pre exactly when s is pre
followed by some remainder. -/
theorem pyStartswith_iff (s pre : String) :
    pyStartswith s pre = true ↔ ∃ rest : String, s = pre ++ rest := by
  unfold pyStartswith
  rw [List.isPrefixOf_iff_prefix]
  constructor
  · rintro ⟨t, ht⟩
    refine ⟨String.mk t, String.ext ?_⟩
    simpa using ht.symm
  · rintro ⟨rest, rfl⟩
    exact ⟨rest.data, (String.data_append pre rest).symm⟩

/-- C5: a path is sensitive exactly when it equals a configured prefix or
extends one across a "/" separator; sharing leading characters without a
segment boundary, as /exporting against /export, is not sensitive. -/
theorem C5_sensitive_path_iff :
    (∀ (path : String) (ps : List String),
        _is_sensitive_path path ps = true ↔
          ∃ p ∈ ps, path = p ∨ ∃ rest : String, path = (p ++ "/") ++ rest)
    ∧ _is_sensitive_path "/exporting" ["/export"] = false := by
  constructor
  · intro path ps
    unfold _is_sensitive_path
    rw [List.any_eq_true]
    constructor
    · rintro ⟨p, hp, hcond⟩
      rw [Bool.or_eq_true, beq_iff_eq] at hcond
      rcases hcond with h | h
      · exact ⟨p, hp, Or.inl h⟩
      · exact ⟨p, hp, Or.inr ((pyStartswith_iff path (p ++ "/")).1 h)⟩
    · rintro ⟨p, hp, h | h⟩
      · exact ⟨p, hp, by rw [Bool.or_eq_true, beq_iff_eq]; exact Or.inl h⟩
      · refine ⟨p, hp, ?_⟩
        rw [Bool.or_eq_true]
        exact Or.inr ((pyStartswith_iff path (p ++ "/")).2 h)
  · decide

/-- C5 witness: /admin/users is sensitive for the prefix /admin, through the
existential direction of the characterisation. -/
theorem C5_witness :
    _is_sensitive_path "/admin/users" ["/export", "/admin"] = true :=
  (C5_sensitive_path_iff.1 "/admin/users" ["/export", "/admin"]).2
    ⟨"/admin", by decide, Or.inr ⟨"users", rfl⟩⟩

/-- C6: local decoding succeeds only when the signing key and algorithm
match the local configuration, the token is unexpired, typ is local and iss
is local_service; a token passing key, algorithm and expiry checks with a
wrong typ or iss is rejected with the invalid-context error. -/
theorem C6_local_decode (localSecret localAlg : String) (nowTs : Int)
    (tok : LocalToken) :
    ((∃ cl, _decode_local_token localSecret localAlg nowTs tok = Except.ok cl) →
        tok.secret = localSecret ∧ tok.alg = localAlg ∧ nowTs ≤ tok.payload.exp ∧
          tok.payload.typ = some "local" ∧ tok.payload.iss = some "local_service")
    ∧ (tok.secret = localSecret → tok.alg = localAlg → nowTs ≤ tok.payload.exp →
        tok.payload.typ ≠ some "local" ∨ tok.payload.iss ≠ some "local_service" →
        _decode_local_token localSecret localAlg nowTs tok
          = Except.error LocalAuthError.invalidContext) := by
  constructor
  · rintro ⟨cl, hcl⟩
    by_cases h1 : tok.secret ≠ localSecret ∨ tok.alg ≠ localAlg
        ∨ tok.payload.exp < nowTs
    · simp [_decode_local_token, h1] at hcl
    · by_cases h2 : tok.payload.typ ≠ some "local"
          ∨ tok.payload.iss ≠ some "local_service"
      · simp [_decode_local_token, h1, h2] at hcl
      · push_neg at h1 h2
        exact ⟨h1.1, h1.2.1, h1.2.2, h2.1, h2.2⟩
  · intro hs ha he hbad
    have h1 : ¬(tok.secret ≠ localSecret ∨ tok.alg ≠ localAlg
        ∨ tok.payload.exp < nowTs) := by
      push_neg
      exact ⟨hs, ha, he⟩
    simp [_decode_local_token, h1, hbad]

/-- C6 witness: a token signed with the right local key and algorithm,
unexpired, but carrying typ access, is rejected with the invalid-context
error. -/
theorem C6_witness :
    _decode_local_token "local-secret" "HS256" 1000
        { secret := "local-secret", alg := "HS256"
          payload := { sub := "u", role := "user", iat := 900, exp := 1100,
                       typ := some "access", iss := some "local_service" } }
      = Except.error LocalAuthError.invalidContext :=
  (C6_local_decode "local-secret" "HS256" 1000
      { secret := "local-secret", alg := "HS256"
        payload := { sub := "u", role := "user", iat := 900, exp := 1100,
                     typ := some "access", iss := some "local_service" } }).2
    rfl rfl (by decide) (Or.inl (by decide))

/-- The device-resolution rule as claim C7 reads it: the first field with
non-blank content among (deviceid, device_id) is selected and trimmed, and
"unknown" is returned when neither has non-blank content; under this rule a
whitespace-only deviceid is skipped in favour of a non-empty device_id,
which is exactly what the in-particular clause of C7 asserts. -/
def resolve_deviceid_claimed (dev alt : Option String) : String :=
  match dev with
  | some s =>
      if pyStrip s ≠ "" then pyStrip s
      else
        match alt with
        | some t => if pyStrip t ≠ "" then pyStrip t else "unknown"
        | none => "unknown"
  | none =>
      match alt with
      | some t => if pyStrip t ≠ "" then pyStrip t else "unknown"
      | none => "unknown"

/-- C7 counterexample: a whitespace-only deviceid together with the
non-empty device_id dev-1 resolves to unknown in the code (also through a
full login), while the claimed rule resolves it to the trimmed device_id. -/
theorem C7_counterexample :
    resolve_deviceid (some "   ") (some "dev-1") = "unknown"
    ∧ resolve_deviceid_claimed (some "   ") (some "dev-1") = "dev-1"
    ∧ resolve_deviceid (some "   ") (some "dev-1")
        ≠ resolve_deviceid_claimed (some "   ") (some "dev-1")
    ∧ ((login USERS
          { username := "analyst", password := "analyst",
            deviceid := some "   ", device_id := some "dev-1" } 1000 30).map
        (fun r => r.claims.deviceid)) = some "unknown" := by decide

/-- The device-resolution rule of claim C7 amended no further than the
counterexample forces: selection is by Python truthiness, so the first
non-empty string among (deviceid, device_id) is selected even if it is
whitespace-only, and a selected value that trims to empty yields "unknown"
instead of falling through to the next field. -/
def resolve_deviceid_amended (dev alt : Option String) : String :=
  match dev with
  | some s =>
      if s ≠ "" then (if pyStrip s = "" then "unknown" else pyStrip s)
      else
        match alt with
        | some t =>
            if t ≠ "" then (if pyStrip t = "" then "unknown" else pyStrip t)
            else "unknown"
        | none => "unknown"
  | none =>
      match alt with
      | some t =>
          if t ≠ "" then (if pyStrip t = "" then "unknown" else pyStrip t)
          else "unknown"
      | none => "unknown"

/-- C7 amended: the issuer resolution line agrees, for every pair of
optional device fields, with the amended rule: trim the first non-empty of
(deviceid, device_id), default "unknown" when both are absent or empty, and
"unknown" when the selected field is whitespace-only. -/
theorem C7_amended_resolution (dev alt : Option String) :
    resolve_deviceid dev alt = resolve_deviceid_amended dev alt := by
  cases dev with
  | none =>
    cases alt with
    | none => decide
    | some t =>
      by_cases ht : t = ""
      · subst ht; decide
      · simp [resolve_deviceid, resolve_deviceid_amended, pyOrStr, ht]
  | some s =>
    by_cases hs : s = ""
    · subst hs
      cases alt with
      | none => decide
      | some t =>
        by_cases ht : t = ""
        · subst ht; decide
        · simp [resolve_deviceid, resolve_deviceid_amended, pyOrStr, ht]
    · simp [resolve_deviceid, resolve_deviceid_amended, pyOrStr, hs]

/-- C8: every successfully issued token has iat equal to the issuance time,
exp equal to iat plus sixty times the configured TTL minutes, typ access and
auth_time iat; the returned expires_in is exp minus iat, and a positive TTL
gives exp strictly greater than iat. -/
theorem C8_issuance_invariants (users : List (String × UserRec)) (inp : LoginIn)
    (nowTs ttlMinutes : Int) (r : LoginResult)
    (h : login users inp nowTs ttlMinutes = some r) :
    r.claims.iat = nowTs ∧ r.claims.exp = nowTs + 60 * ttlMinutes ∧
    r.claims.typ = "access" ∧ r.claims.auth_time = r.claims.iat ∧
    r.expires_in = r.claims.exp - r.claims.iat ∧
    (0 < ttlMinutes → r.claims.iat < r.claims.exp) := by
  unfold login at h
  split at h
  · cases h
  · split at h
    · cases h
    · have hr := Option.some.inj h
      subst hr
      refine ⟨rfl, rfl, rfl, rfl, rfl, ?_⟩
      intro ht
      show nowTs < nowTs + 60 * ttlMinutes
      omega

/-- The concrete login result produced by the admin user at time 1000 with
the default 30 minute TTL, used by the C8 witness. -/
def C8res : LoginResult :=
  { claims :=
      { sub := "admin", role := "admin", deviceid := "unknown", riskscore := 60,
        iat := 1000, exp := 2800, typ := "access", auth_time := 1000 }
    expires_in := 1800 }

/-- C8 witness: the admin login at time 1000 with the default TTL of 30
minutes produces C8res, which satisfies all the issuance invariants. -/
theorem C8_witness :
    login USERS
        { username := "admin", password := "admin",
          deviceid := none, device_id := none } 1000 30 = some C8res
    ∧ (C8res.claims.iat = 1000 ∧ C8res.claims.exp = 1000 + 60 * 30 ∧
        C8res.claims.typ = "access" ∧ C8res.claims.auth_time = C8res.claims.iat ∧
        C8res.expires_in = C8res.claims.exp - C8res.claims.iat ∧
        (0 < (30 : Int) → C8res.claims.iat < C8res.claims.exp)) :=
  ⟨by decide,
   C8_issuance_invariants USERS
     { username := "admin", password := "admin", deviceid := none, device_id := none }
     1000 30 C8res (by decide)⟩

/-- C9: a missing riskscore entry, and one whose value does not convert to
an integer, are both treated as riskscore 0, so a non-admin on a sensitive
path inside business hours with a trusted device is challenged rather than
denied for high risk. -/
theorem C9_unparsable_riskscore (cfg : PolicyConfig) (path : String) (c : Claims)
    (hour : Nat)
    (hbh : _within_business_hours cfg hour = true)
    (hdev : effective_deviceid c ≠ "")
    (hreg : effective_deviceid c ∈ cfg.registeredDevices)
    (hsens : _is_sensitive_path path cfg.sensitivePaths = true)
    (hrole : c.role ≠ some "admin")
    (hrisk : c.riskscore = none ∨ ∃ v, c.riskscore = some v ∧ pyToInt v = none) :
    effective_riskscore c = 0 ∧
    evaluate_request_context cfg path c hour = (Decision.challenge, reason_stepup) := by
  have h0 : effective_riskscore c = 0 := by
    rcases hrisk with h | ⟨v, hv, hpv⟩
    · simp [effective_riskscore, h]
    · simp [effective_riskscore, hv, hpv]
  refine ⟨h0, ?_⟩
  simp [evaluate_request_context, _context_after_hours, hbh, hdev, hreg, hsens,
    hrole, h0]

/-- C9 witness: an analyst with a trusted device on /export at hour 10 whose
riskscore claim is the unparsable string NaN is challenged. -/
theorem C9_witness :
    effective_riskscore
        { role := some "analyst", deviceid := some "mac-001",
          riskscore := some (PyVal.pstr "NaN") } = 0
    ∧ evaluate_request_context default_config "/export"
        { role := some "analyst", deviceid := some "mac-001",
          riskscore := some (PyVal.pstr "NaN") } 10
      = (Decision.challenge, reason_stepup) :=
  C9_unparsable_riskscore default_config "/export"
    { role := some "analyst", deviceid := some "mac-001",
      riskscore := some (PyVal.pstr "NaN") } 10
    (by decide) (by decide) (by decide) (by decide) (by decide)
    (Or.inr ⟨PyVal.pstr "NaN", rfl, by decide⟩)

/-- C10: compute_risk only takes the values 40, 60 and 80; it reaches the
sensitive-path deny threshold 70 exactly when the role is contractor and the
device is simultaneously blank, unknown or none; and the clamp bounds are
never active, the result being the plain surcharge sum. -/
theorem C10_risk_values (role deviceid : String) :
    (compute_risk role deviceid = 40 ∨ compute_risk role deviceid = 60 ∨
      compute_risk role deviceid = 80)
    ∧ (70 ≤ compute_risk role deviceid ↔
        role = "contractor" ∧
          (deviceid = ""
            ∨ pyLower (pyStrip deviceid) ∈ (["", "unknown", "none"] : List String)))
    ∧ compute_risk role deviceid =
        40 + (if role = "contractor" then (20 : Int) else 0)
          + (if deviceid = ""
                ∨ pyLower (pyStrip deviceid) ∈ (["", "unknown", "none"] : List String)
             then (20 : Int) else 0) := by
  simp only [compute_risk]
  refine ⟨?_, ?_, ?_⟩ <;> split_ifs with h1 h2 <;> simp_all

/-- C10 witness: the contractor role with the blank-equivalent device
" None " reaches the deny threshold. -/
theorem C10_witness :
    70 ≤ compute_risk "contractor" " None " :=
  (C10_risk_values "contractor" " None ").2.1.mpr ⟨rfl, by decide⟩

end SDA4
